import Mathlib

/-!
Verification of the keyed async loader (`DataLoader` in `src/js/main.js`).

The loader memoizes successful fetches in `cache`, collapses concurrent
requests for a key into one underlying fetch via `loadingStates`, and offers
bulk loading (`loadMultiple`), best-effort warm-up (`preload`) and cache
invalidation (`clearCache`).

The embedding is a small-step trace semantics.  JavaScript runs each `async`
method synchronously up to its first `await`; the only suspension point of
`loadData` is `await loadingPromise`.  So a `loadData` call is split into a
synchronous prefix (`loadDataSync`: cache check, in-flight check, transport
invocation, `loadingStates.set`) and a continuation that runs when the fetch
settles (`settleLoader`: conditional `cache.set`, `loadingStates.delete`).
The environment chooses when each outstanding fetch settles and with which
outcome, via a schedule of commands (`Cmd`) folded over a `World`.
-/

namespace DataLoader

/-- Keys are URL strings, e.g. `"data/projects.json"`. -/
abbrev Key := String

/-- Decoded JSON payloads are opaque to the loader; we model them as strings. -/
abbrev Value := String

/-- Identifier of one underlying transport invocation (one `fetchData` call). -/
abbrev FetchId := Nat

/-- Identifier of one external call into the loader. -/
abbrev CallerId := Nat

/-- Errors a `loadData` promise can reject with: `httpStatus s` models
`new Error("HTTP error! status: " + s)` thrown on a non-ok response, and
`transport msg` models a rethrown transport-level failure (network
unreachable, malformed response body). -/
inductive FetchError where
  | httpStatus (status : Nat)
  | transport (msg : String)
deriving DecidableEq, Repr

/-- Outcome of a settled fetch promise. -/
abbrev Outcome := Except FetchError Value

/-- `Map.get`, on the association-list model of a JS `Map`. -/
def mapGet {α : Type} (m : List (Key × α)) (k : Key) : Option α :=
  match m with
  | [] => none
  | (k', v) :: rest => if k' = k then some v else mapGet rest k

/-- `Map.set`: overwrite the key in place if present, else append. -/
def mapSet {α : Type} (m : List (Key × α)) (k : Key) (v : α) : List (Key × α) :=
  match m with
  | [] => [(k, v)]
  | (k', v') :: rest => if k' = k then (k, v) :: rest else (k', v') :: mapSet rest k v

/-- `Map.delete`: drop the entry for the key, if any. -/
def mapDelete {α : Type} (m : List (Key × α)) (k : Key) : List (Key × α) :=
  match m with
  | [] => []
  | (k', v') :: rest => if k' = k then rest else (k', v') :: mapDelete rest k

/-- The mutable fields of the `DataLoader` instance, plus trace bookkeeping:
`pendingMeta` records, per outstanding fetch, the key and the initiating
call's `useCache` flag (the data captured by the initiator's continuation);
`nextFid` allocates fetch identifiers; `transportLog` records every
transport invocation in order. -/
structure LoaderState where
  cache : List (Key × Value)
  loadingStates : List (Key × FetchId)
  pendingMeta : List (FetchId × Key × Bool)
  nextFid : FetchId
  transportLog : List (FetchId × Key)
deriving Repr

/-- Fresh loader: `this.cache = new Map(); this.loadingStates = new Map()`. -/
def LoaderState.init : LoaderState :=
  { cache := [], loadingStates := [], pendingMeta := [], nextFid := 0, transportLog := [] }

/-- How the synchronous prefix of `loadData` returned. -/
inductive StartResult where
  | fromCache (v : Value)
  | joined (fid : FetchId)
  | initiated (fid : FetchId)
deriving DecidableEq, Repr

/-- The synchronous prefix of `loadData(url, useCache)`: serve from cache when
`useCache && this.cache.has(url)`; else join an in-flight promise from
`loadingStates`; else invoke the transport (`this.fetchData(url)`), record the
promise in `loadingStates`, and suspend. -/
def loadDataSync (s : LoaderState) (url : Key) (useCache : Bool) :
    StartResult × LoaderState :=
  match (if useCache then mapGet s.cache url else none) with
  | some v => (.fromCache v, s)
  | none =>
    match mapGet s.loadingStates url with
    | some fid => (.joined fid, s)
    | none =>
      let fid := s.nextFid
      (.initiated fid,
        { s with
          loadingStates := mapSet s.loadingStates url fid
          pendingMeta := s.pendingMeta ++ [(fid, url, useCache)]
          nextFid := fid + 1
          transportLog := s.transportLog ++ [(fid, url)] })

/-- The initiator's continuation, run when fetch `fid` settles with outcome
`o`: on success, `cache.set` when the initiating call had `useCache`; in all
cases `loadingStates.delete(url)`. -/
def settleLoader (s : LoaderState) (fid : FetchId) (o : Outcome) : LoaderState :=
  match s.pendingMeta.find? (fun m => m.1 == fid) with
  | none => s
  | some (_, url, useCache) =>
    let s' := { s with pendingMeta := s.pendingMeta.filter (fun m => !(m.1 == fid)) }
    match o with
    | .ok v =>
      { s' with
        cache := if useCache then mapSet s'.cache url v else s'.cache
        loadingStates := mapDelete s'.loadingStates url }
    | .error _ =>
      { s' with loadingStates := mapDelete s'.loadingStates url }

/-- One position of a `loadMultiple` fan-out: either already resolved
(served from cache) or awaiting fetch `fid`. -/
inductive Slot where
  | resolved (v : Value)
  | waiting (fid : FetchId)
deriving DecidableEq, Repr

/-- Does this slot await fetch `fid`? -/
def Slot.waitsFor (sl : Slot) (fid : FetchId) : Bool :=
  match sl with
  | .waiting fid' => fid' == fid
  | .resolved _ => false

/-- Resolve every slot awaiting `fid` with value `v`. -/
def settleSlot (fid : FetchId) (v : Value) (sl : Slot) : Slot :=
  match sl with
  | .waiting fid' => if fid' == fid then .resolved v else sl
  | .resolved _ => sl

/-- Values of the slots, when every slot has resolved. -/
def slotsValues (slots : List Slot) : Option (List Value) :=
  match slots with
  | [] => some []
  | .resolved v :: rest => (slotsValues rest).map (v :: ·)
  | .waiting _ :: _ => none


/-- The state of one external call: a pending or settled `loadData` promise,
a pending or settled `loadMultiple` (`Promise.all`) promise, or a pending or
settled `preload` promise.  A settled `preload` carries `Except`-level `.ok`
(it resolved) together with the diagnostic it logged: `none` for
`console.log("Data preloaded successfully")`, `some e` for
`console.warn("Some data failed to preload:", e)`. -/
inductive Task where
  | waitOne (fid : FetchId)
  | doneOne (o : Except FetchError Value)
  | waitAll (slots : List Slot)
  | doneAll (o : Except FetchError (List Value))
  | waitPre (slots : List Slot)
  | donePre (o : Except FetchError (Option FetchError))
deriving Repr

/-- `Promise.all` resolves as soon as every constituent has resolved. -/
def finishAll (slots : List Slot) : Task :=
  match slotsValues slots with
  | some vs => .doneAll (.ok vs)
  | none => .waitAll slots

/-- Like `finishAll`, for the aggregate awaited inside `preload`. -/
def finishPre (slots : List Slot) : Task :=
  match slotsValues slots with
  | some _ => .donePre (.ok none)
  | none => .waitPre slots

/-- Propagate the settlement of fetch `fid` with outcome `o` to a task. A
pending `Promise.all` rejects with the first constituent rejection that
occurs; `preload` catches that rejection and resolves with a warning. -/
def settleTask (fid : FetchId) (o : Outcome) (t : Task) : Task :=
  match t with
  | .waitOne fid' => if fid' == fid then .doneOne o else t
  | .waitAll slots =>
    if slots.any (fun sl => sl.waitsFor fid) then
      match o with
      | .ok v => finishAll (slots.map (settleSlot fid v))
      | .error e => .doneAll (.error e)
    else t
  | .waitPre slots =>
    if slots.any (fun sl => sl.waitsFor fid) then
      match o with
      | .ok v => finishPre (slots.map (settleSlot fid v))
      | .error e => .donePre (.ok (some e))
    else t
  | _ => t

/-- The world: the loader instance plus every external call's task. -/
structure World where
  loader : LoaderState
  tasks : List (CallerId × Task)
deriving Repr

def World.init : World := { loader := LoaderState.init, tasks := [] }

/-- The promise returned by a `loadData` call, seen as a caller's task: a
cache hit is an already-resolved promise, the other two cases await the
underlying fetch. -/
def startTask : StartResult → Task
  | .fromCache v => .doneOne (.ok v)
  | .joined fid => .waitOne fid
  | .initiated fid => .waitOne fid

/-- The promise returned by a `loadData` call, seen as one slot of a
`Promise.all` fan-out. -/
def startSlot : StartResult → Slot
  | .fromCache v => .resolved v
  | .joined fid => .waiting fid
  | .initiated fid => .waiting fid

/-- The synchronous prefixes of `urls.map((url) => this.loadData(url, useCache))`,
run left to right. -/
def loadMultipleSync (s : LoaderState) (urls : List Key) (useCache : Bool) :
    List Slot × LoaderState :=
  match urls with
  | [] => ([], s)
  | url :: rest =>
    let p := loadDataSync s url useCache
    let q := loadMultipleSync p.2 rest useCache
    (startSlot p.1 :: q.1, q.2)

/-- Events of a trace: external calls into the loader, the settlement of an
outstanding fetch (chosen by the environment, in any order and with any
outcome), and cache invalidation. -/
inductive Cmd where
  | loadData (cid : CallerId) (url : Key) (useCache : Bool)
  | loadMultiple (cid : CallerId) (urls : List Key) (useCache : Bool)
  | preload (cid : CallerId) (urls : List Key)
  | settle (fid : FetchId) (o : Outcome)
  | clearCache (url : Option Key)

/-- One step.  `clearCache` follows the JS truthiness test `if (url)`: the
empty string is falsy, so `clearCache("")` clears the whole cache.  A
`settle` for a fetch that is not outstanding is a no-op (a promise settles
exactly once). -/
def step (w : World) (c : Cmd) : World :=
  match c with
  | .loadData cid url useCache =>
    let p := loadDataSync w.loader url useCache
    { loader := p.2, tasks := w.tasks ++ [(cid, startTask p.1)] }
  | .loadMultiple cid urls useCache =>
    let p := loadMultipleSync w.loader urls useCache
    { loader := p.2, tasks := w.tasks ++ [(cid, finishAll p.1)] }
  | .preload cid urls =>
    let p := loadMultipleSync w.loader urls true
    { loader := p.2, tasks := w.tasks ++ [(cid, finishPre p.1)] }
  | .settle fid o =>
    if w.loader.pendingMeta.any (fun m => m.1 == fid) then
      { loader := settleLoader w.loader fid o
        tasks := w.tasks.map (fun p => (p.1, settleTask fid o p.2)) }
    else w
  | .clearCache u =>
    match u with
    | some url =>
      if url = "" then { w with loader := { w.loader with cache := [] } }
      else { w with loader := { w.loader with cache := mapDelete w.loader.cache url } }
    | none => { w with loader := { w.loader with cache := [] } }

/-- Run a schedule. -/
def run (w : World) (cs : List Cmd) : World := cs.foldl step w

/-- Task of a caller. -/
def taskOf (w : World) (cid : CallerId) : Option Task :=
  (w.tasks.find? (fun p => p.1 == cid)).map (fun p => p.2)

/-- Number of transport invocations issued for `url` so far. -/
def transportCount (w : World) (url : Key) : Nat :=
  (w.loader.transportLog.filter (fun p => p.2 == url)).length

/-- A task never holds a rejected `preload` promise: `preload` resolves in
every case, with or without a suppressed diagnostic. -/
def neverRejects (t : Task) : Bool :=
  match t with
  | .donePre (.error _) => false
  | _ => true

instance {ε α : Type} [DecidableEq ε] [DecidableEq α] : DecidableEq (Except ε α) :=
  fun x y =>
    match x, y with
    | .ok a, .ok b =>
      if h : a = b then .isTrue (by rw [h])
      else .isFalse (by intro he; cases he; exact h rfl)
    | .ok _, .error _ => .isFalse (by intro he; cases he)
    | .error _, .ok _ => .isFalse (by intro he; cases he)
    | .error e, .error f =>
      if h : e = f then .isTrue (by rw [h])
      else .isFalse (by intro he; cases he; exact h rfl)

/-- The transport collaborator's possible responses to one fetch: the fetch
promise itself rejects (network unreachable), or a response arrives with an
`ok` flag, a status code, and a body whose JSON decoding succeeds or fails. -/
structure FetchResponse where
  ok : Bool
  status : Nat
  body : Except String Value
deriving DecidableEq, Repr

/-- Result of `await fetch(url)` together with `response.json()`. -/
inductive TransportResult where
  | networkError (msg : String)
  | response (r : FetchResponse)
deriving DecidableEq, Repr

/-- `fetchData(url)`: on a non-ok response throw
`new Error("HTTP error! status: " + status)`; otherwise return the decoded
body; transport-level failures (rejected fetch, failed JSON decode) are
logged and rethrown unchanged by the `catch` block. -/
def fetchData (tr : TransportResult) : Except FetchError Value :=
  match tr with
  | .networkError msg => .error (.transport msg)
  | .response r =>
    if !r.ok then .error (.httpStatus r.status)
    else
      match r.body with
      | .ok v => .ok v
      | .error msg => .error (.transport msg)

end DataLoader

namespace DataLoader

/-- C1: if two (or more) `load(k)` calls are issued while a fetch for `k` is
in flight and `k` is not served from the cache, exactly one underlying
transport invocation occurs for `k`, and every such caller observes the
identical outcome (the same success value or the same failure).  Caller 0
initiates the fetch; callers 1 and 2 arrive while it is in flight (the cache
holds nothing for `k`, so none is served from cache, whatever their flags);
all three resolve to the one settlement outcome `o` of the single fetch. -/
theorem inflight_join_single_transport (k : Key) (u1 u2 u3 : Bool) (o : Outcome) :
    let w := run World.init
      [.loadData 0 k u1, .loadData 1 k u2, .loadData 2 k u3, .settle 0 o]
    transportCount w k = 1 ∧
    taskOf w 0 = some (.doneOne o) ∧
    taskOf w 1 = some (.doneOne o) ∧
    taskOf w 2 = some (.doneOne o) := by
  cases o <;>
    simp [run, step, loadDataSync, startTask, mapGet, mapSet, mapDelete, settleLoader,
      settleTask, taskOf, transportCount, LoaderState.init, World.init]

/-- C2: a `load(k, useCache := false)` call joins an in-flight fetch for `k`
instead of starting a new one (scenario A: caller 1 ends up awaiting caller
0's fetch, and only one transport invocation exists), and a cache-bypassing
call never stores its result: after a completed `load(k, false)` the cache
has no entry for `k`, and a subsequent `load(k, true)` invokes the transport
again (scenario B: two invocations in total). -/
theorem cache_bypass_never_persists (k : Key) (u : Bool) (v : Value) :
    (let wA := run World.init [.loadData 0 k u, .loadData 1 k false]
     transportCount wA k = 1 ∧ taskOf wA 1 = some (.waitOne 0)) ∧
    (let wB := run World.init [.loadData 0 k false, .settle 0 (.ok v)]
     mapGet wB.loader.cache k = none ∧
     taskOf wB 0 = some (.doneOne (.ok v)) ∧
     transportCount (run wB [.loadData 1 k true]) k = 2) := by
  constructor <;>
    simp [run, step, loadDataSync, startTask, mapGet, mapSet, mapDelete, settleLoader,
      settleTask, taskOf, transportCount, LoaderState.init, World.init]

/-- C4: after one successful `load(k, true)`, a second `load(k, true)`
returns the identical cached value (it resolves immediately, with no further
settlement event) and the transport has been invoked exactly once for `k`. -/
theorem cache_hit_avoids_refetch (k : Key) (v : Value) :
    let w := run World.init [.loadData 0 k true, .settle 0 (.ok v), .loadData 1 k true]
    taskOf w 0 = some (.doneOne (.ok v)) ∧
    taskOf w 1 = some (.doneOne (.ok v)) ∧
    transportCount w k = 1 := by
  simp [run, step, loadDataSync, startTask, mapGet, mapSet, mapDelete, settleLoader,
    settleTask, taskOf, transportCount, LoaderState.init, World.init]

/-- C5: when a `load(k, true)` call joins a fetch initiated by a
`load(k, false)` call, the result is not stored in the cache (caching is
decided by the initiating call's flag alone): both callers resolve to the
fetched value, the cache stays empty for `k`, and a subsequent
`load(k, true)` invokes the transport a second time. -/
theorem join_caching_by_initiator_flag (k : Key) (v : Value) :
    let w := run World.init [.loadData 0 k false, .loadData 1 k true, .settle 0 (.ok v)]
    taskOf w 0 = some (.doneOne (.ok v)) ∧
    taskOf w 1 = some (.doneOne (.ok v)) ∧
    mapGet w.loader.cache k = none ∧
    transportCount (run w [.loadData 2 k true]) k = 2 := by
  simp [run, step, loadDataSync, startTask, mapGet, mapSet, mapDelete, settleLoader,
    settleTask, taskOf, transportCount, LoaderState.init, World.init]

/-- C3: when the fetch initiated for key `k` fails, the in-flight marker for
`k` is removed, the cache is unchanged by the failed call (here it still
holds exactly the previously cached entry for the other key `k0`, and
nothing for `k`), the failure propagates to the initiator and to every
joined caller, and a subsequent `load(k)` starts a new transport invocation
(two invocations for `k` in total). -/
theorem failure_clears_inflight_allows_retry (k0 k : Key) (v0 : Value)
    (u1 u2 u3 : Bool) (e : FetchError) (hk : k0 ≠ k) :
    let w0 := run World.init [.loadData 9 k0 true, .settle 0 (.ok v0)]
    let w1 := run w0 [.loadData 0 k u1, .loadData 1 k u2, .settle 1 (.error e)]
    mapGet w1.loader.loadingStates k = none ∧
    w1.loader.cache = [(k0, v0)] ∧
    taskOf w1 0 = some (.doneOne (.error e)) ∧
    taskOf w1 1 = some (.doneOne (.error e)) ∧
    transportCount (run w1 [.loadData 2 k u3]) k = 2 := by
  simp [run, step, loadDataSync, startTask, mapGet, mapSet, mapDelete, settleLoader,
    settleTask, taskOf, transportCount, LoaderState.init, World.init, hk]

/-- Witness for `failure_clears_inflight_allows_retry`. -/
theorem failure_clears_inflight_allows_retry_witness :
    ("data/projects.json" : String) ≠ "data/skills.json" ∧
    (let w0 := run World.init
      [.loadData 9 "data/projects.json" true, .settle 0 (.ok "p")]
     let w1 := run w0 [.loadData 0 "data/skills.json" true,
       .loadData 1 "data/skills.json" false, .settle 1 (.error (.httpStatus 404))]
     mapGet w1.loader.loadingStates "data/skills.json" = none ∧
     w1.loader.cache = [("data/projects.json", "p")] ∧
     taskOf w1 0 = some (.doneOne (.error (.httpStatus 404))) ∧
     taskOf w1 1 = some (.doneOne (.error (.httpStatus 404))) ∧
     transportCount (run w1 [.loadData 2 "data/skills.json" true]) "data/skills.json" = 2) :=
  ⟨by decide,
   failure_clears_inflight_allows_retry "data/projects.json" "data/skills.json" "p"
     true false true (.httpStatus 404) (by decide)⟩

/-- C6: `loadMany` returns a sequence positionally aligned with the input key
sequence, regardless of the order in which the underlying fetches complete:
for `loadMultiple [a, b, c]` (fetches 0, 1, 2), all six settlement orders
resolve the aggregate to `[va, vb, vc]`. -/
theorem loadMultiple_preserves_order (a b c : Key) (va vb vc : Value)
    (hab : a ≠ b) (hac : a ≠ c) (hbc : b ≠ c) :
    (taskOf (run World.init [.loadMultiple 0 [a, b, c] true,
        .settle 0 (.ok va), .settle 1 (.ok vb), .settle 2 (.ok vc)]) 0 =
      some (.doneAll (.ok [va, vb, vc]))) ∧
    (taskOf (run World.init [.loadMultiple 0 [a, b, c] true,
        .settle 0 (.ok va), .settle 2 (.ok vc), .settle 1 (.ok vb)]) 0 =
      some (.doneAll (.ok [va, vb, vc]))) ∧
    (taskOf (run World.init [.loadMultiple 0 [a, b, c] true,
        .settle 1 (.ok vb), .settle 0 (.ok va), .settle 2 (.ok vc)]) 0 =
      some (.doneAll (.ok [va, vb, vc]))) ∧
    (taskOf (run World.init [.loadMultiple 0 [a, b, c] true,
        .settle 1 (.ok vb), .settle 2 (.ok vc), .settle 0 (.ok va)]) 0 =
      some (.doneAll (.ok [va, vb, vc]))) ∧
    (taskOf (run World.init [.loadMultiple 0 [a, b, c] true,
        .settle 2 (.ok vc), .settle 0 (.ok va), .settle 1 (.ok vb)]) 0 =
      some (.doneAll (.ok [va, vb, vc]))) ∧
    (taskOf (run World.init [.loadMultiple 0 [a, b, c] true,
        .settle 2 (.ok vc), .settle 1 (.ok vb), .settle 0 (.ok va)]) 0 =
      some (.doneAll (.ok [va, vb, vc]))) := by
  refine ⟨?_, ?_, ?_, ?_, ?_, ?_⟩ <;>
    simp [run, step, loadDataSync, loadMultipleSync, startSlot, mapGet, mapSet, mapDelete,
      settleLoader, settleTask, settleSlot, Slot.waitsFor, slotsValues, finishAll,
      taskOf, LoaderState.init, World.init, hab, hac, hbc]

/-- Witness for `loadMultiple_preserves_order`. -/
theorem loadMultiple_preserves_order_witness :
    ("data/a.json" : String) ≠ "data/b.json" ∧
    ("data/a.json" : String) ≠ "data/c.json" ∧
    ("data/b.json" : String) ≠ "data/c.json" ∧
    taskOf (run World.init [.loadMultiple 0 ["data/a.json", "data/b.json", "data/c.json"] true,
        .settle 2 (.ok "vc"), .settle 0 (.ok "va"), .settle 1 (.ok "vb")]) 0 =
      some (.doneAll (.ok ["va", "vb", "vc"])) :=
  ⟨by decide, by decide, by decide,
   (loadMultiple_preserves_order "data/a.json" "data/b.json" "data/c.json"
     "va" "vb" "vc" (by decide) (by decide) (by decide)).2.2.2.2.1⟩

/-- C7: `loadMany` fails as a whole as soon as any constituent load fails,
propagating that first failure, and never returns a partial result sequence:
once fetch 2 rejects with `e2`, the aggregate is the single error `e2`, and
it stays exactly that error after the remaining fetches settle (even when
one of them later fails with a different error `e0`). -/
theorem loadMultiple_all_or_nothing (a b c : Key) (e2 e0 : FetchError) (vb : Value)
    (hab : a ≠ b) (hac : a ≠ c) (hbc : b ≠ c) :
    let w := run World.init [.loadMultiple 0 [a, b, c] true, .settle 2 (.error e2)]
    taskOf w 0 = some (.doneAll (.error e2)) ∧
    taskOf (run w [.settle 0 (.error e0), .settle 1 (.ok vb)]) 0 =
      some (.doneAll (.error e2)) := by
  simp [run, step, loadDataSync, loadMultipleSync, startSlot, mapGet, mapSet, mapDelete,
    settleLoader, settleTask, settleSlot, Slot.waitsFor, slotsValues, finishAll,
    taskOf, LoaderState.init, World.init, hab, hac, hbc]

/-- Witness for `loadMultiple_all_or_nothing`. -/
theorem loadMultiple_all_or_nothing_witness :
    ("data/a.json" : String) ≠ "data/b.json" ∧
    ("data/a.json" : String) ≠ "data/c.json" ∧
    ("data/b.json" : String) ≠ "data/c.json" ∧
    (let w := run World.init
      [.loadMultiple 0 ["data/a.json", "data/b.json", "data/c.json"] true,
       .settle 2 (.error (.httpStatus 500))]
     taskOf w 0 = some (.doneAll (.error (.httpStatus 500))) ∧
     taskOf (run w [.settle 0 (.error (.transport "net down")), .settle 1 (.ok "vb")]) 0 =
       some (.doneAll (.error (.httpStatus 500)))) :=
  ⟨by decide, by decide, by decide,
   loadMultiple_all_or_nothing "data/a.json" "data/b.json" "data/c.json"
     (.httpStatus 500) (.transport "net down") "vb" (by decide) (by decide) (by decide)⟩

/-- C9: `invalidate(k)` removes only the cached entry for `k` (the other
cached entry and the in-flight map are untouched); `invalidate()` with no
key removes every cached entry, so the next loads for both keys re-invoke
the transport; and neither form touches the in-flight map: a fetch that is
in progress when the cache is cleared still completes and populates the
cache normally.  (`k` ranges over the spec's keys, which are non-empty
identifier strings; the JS truthiness test `if (url)` treats `""` like the
no-argument form.) -/
theorem clearCache_frame (a b : Key) (va vb v : Value)
    (hab : a ≠ b) (ha : a ≠ "") :
    let w0 := run World.init [.loadData 0 a true, .settle 0 (.ok va),
                              .loadData 1 b true, .settle 1 (.ok vb)]
    (let w1 := step w0 (.clearCache (some a))
     mapGet w1.loader.cache a = none ∧
     mapGet w1.loader.cache b = some vb ∧
     w1.loader.loadingStates = w0.loader.loadingStates) ∧
    (let w2 := step w0 (.clearCache none)
     w2.loader.cache = [] ∧
     transportCount (run w2 [.loadData 2 a true, .loadData 3 b true]) a = 2 ∧
     transportCount (run w2 [.loadData 2 a true, .loadData 3 b true]) b = 2) ∧
    (let w3 := run World.init [.loadData 0 a true, .clearCache none]
     mapGet w3.loader.loadingStates a = some 0 ∧
     (let w4 := step w3 (.settle 0 (.ok v))
      mapGet w4.loader.cache a = some v ∧
      taskOf w4 0 = some (.doneOne (.ok v)))) := by
  simp [run, step, loadDataSync, startTask, mapGet, mapSet, mapDelete, settleLoader,
    settleTask, taskOf, transportCount, LoaderState.init, World.init, hab, ha,
    Ne.symm hab]

/-- Witness for `clearCache_frame`. -/
theorem clearCache_frame_witness :
    ("data/a.json" : String) ≠ "data/b.json" ∧
    ("data/a.json" : String) ≠ "" ∧
    (let w0 := run World.init [.loadData 0 "data/a.json" true, .settle 0 (.ok "va"),
                               .loadData 1 "data/b.json" true, .settle 1 (.ok "vb")]
     (let w1 := step w0 (.clearCache (some "data/a.json"))
      mapGet w1.loader.cache "data/a.json" = none ∧
      mapGet w1.loader.cache "data/b.json" = some "vb" ∧
      w1.loader.loadingStates = w0.loader.loadingStates) ∧
     (let w2 := step w0 (.clearCache none)
      w2.loader.cache = [] ∧
      transportCount (run w2 [.loadData 2 "data/a.json" true,
        .loadData 3 "data/b.json" true]) "data/a.json" = 2 ∧
      transportCount (run w2 [.loadData 2 "data/a.json" true,
        .loadData 3 "data/b.json" true]) "data/b.json" = 2) ∧
     (let w3 := run World.init [.loadData 0 "data/a.json" true, .clearCache none]
      mapGet w3.loader.loadingStates "data/a.json" = some 0 ∧
      (let w4 := step w3 (.settle 0 (.ok "v"))
       mapGet w4.loader.cache "data/a.json" = some "v" ∧
       taskOf w4 0 = some (.doneOne (.ok "v"))))) :=
  ⟨by decide, by decide,
   clearCache_frame "data/a.json" "data/b.json" "va" "vb" "v" (by decide) (by decide)⟩

theorem neverRejects_startTask (r : StartResult) : neverRejects (startTask r) = true := by
  cases r <;> rfl

theorem neverRejects_finishAll (slots : List Slot) :
    neverRejects (finishAll slots) = true := by
  cases h : slotsValues slots <;> simp [finishAll, h, neverRejects]

theorem neverRejects_finishPre (slots : List Slot) :
    neverRejects (finishPre slots) = true := by
  cases h : slotsValues slots <;> simp [finishPre, h, neverRejects]

theorem neverRejects_settleTask (fid : FetchId) (o : Outcome) (t : Task)
    (h : neverRejects t = true) : neverRejects (settleTask fid o t) = true := by
  cases t with
  | waitOne fid' =>
    cases hc : (fid' == fid) <;> simp [settleTask, hc, neverRejects]
  | doneOne o' => exact h
  | waitAll slots =>
    cases hc : slots.any (fun sl => sl.waitsFor fid) with
    | false => simpa [settleTask, hc] using h
    | true =>
      cases o with
      | ok v =>
        have hfin := neverRejects_finishAll (slots.map (settleSlot fid v))
        simpa [settleTask, hc] using hfin
      | error e => simp [settleTask, hc, neverRejects]
  | doneAll o' => exact h
  | waitPre slots =>
    cases hc : slots.any (fun sl => sl.waitsFor fid) with
    | false => simpa [settleTask, hc] using h
    | true =>
      cases o with
      | ok v =>
        have hfin := neverRejects_finishPre (slots.map (settleSlot fid v))
        simpa [settleTask, hc] using hfin
      | error e => simp [settleTask, hc, neverRejects]
  | donePre o' => exact h

theorem neverRejects_step (w : World) (c : Cmd)
    (h : ∀ p ∈ w.tasks, neverRejects p.2 = true) :
    ∀ p ∈ (step w c).tasks, neverRejects p.2 = true := by
  intro p hp
  cases c with
  | loadData cid url u =>
    simp only [step, List.mem_append, List.mem_singleton] at hp
    rcases hp with hp | hp
    · exact h p hp
    · subst hp; exact neverRejects_startTask _
  | loadMultiple cid urls u =>
    simp only [step, List.mem_append, List.mem_singleton] at hp
    rcases hp with hp | hp
    · exact h p hp
    · subst hp; exact neverRejects_finishAll _
  | preload cid urls =>
    simp only [step, List.mem_append, List.mem_singleton] at hp
    rcases hp with hp | hp
    · exact h p hp
    · subst hp; exact neverRejects_finishPre _
  | settle fid o =>
    simp only [step] at hp
    split at hp
    · simp only [List.mem_map] at hp
      obtain ⟨q, hq, rfl⟩ := hp
      exact neverRejects_settleTask _ _ _ (h q hq)
    · exact h p hp
  | clearCache u =>
    cases u with
    | none => exact h p (by simpa [step] using hp)
    | some url =>
      simp only [step] at hp
      split at hp <;> exact h p hp

theorem neverRejects_run (cs : List Cmd) (w : World)
    (h : ∀ p ∈ w.tasks, neverRejects p.2 = true) :
    ∀ p ∈ (run w cs).tasks, neverRejects p.2 = true := by
  induction cs generalizing w with
  | nil => exact h
  | cons c cs ih =>
    simp only [run, List.foldl_cons] at *
    exact ih (step w c) (neverRejects_step w c h)

/-- C8: `preload` never propagates a fault to its caller.  Concretely, when
every key of `preload [a, b]` fails, the call still resolves, observably
only via the suppressed diagnostic (the first aggregate error); and over an
arbitrary schedule of commands, no caller's `preload` promise is ever in a
rejected state. -/
theorem preload_never_throws (a b : Key) (e1 e2 : FetchError) (hab : a ≠ b) :
    (taskOf (run World.init [.preload 0 [a, b], .settle 0 (.error e1),
        .settle 1 (.error e2)]) 0 = some (.donePre (.ok (some e1)))) ∧
    ∀ cs : List Cmd, ((run World.init cs).tasks.all (fun p => neverRejects p.2)) = true := by
  constructor
  · simp [run, step, loadDataSync, loadMultipleSync, startSlot, mapGet, mapSet, mapDelete,
      settleLoader, settleTask, Slot.waitsFor, slotsValues, finishPre, taskOf,
      LoaderState.init, World.init, hab]
  · intro cs
    rw [List.all_eq_true]
    intro p hp
    exact neverRejects_run cs World.init
      (by intro q hq; simp [World.init] at hq) p hp

/-- Witness for `preload_never_throws`. -/
theorem preload_never_throws_witness :
    ("data/a.json" : String) ≠ "data/b.json" ∧
    (taskOf (run World.init [.preload 0 ["data/a.json", "data/b.json"],
        .settle 0 (.error (.transport "network down")),
        .settle 1 (.error (.httpStatus 404))]) 0 =
      some (.donePre (.ok (some (.transport "network down"))))) ∧
    ∀ cs : List Cmd, ((run World.init cs).tasks.all (fun p => neverRejects p.2)) = true :=
  ⟨by decide,
   (preload_never_throws "data/a.json" "data/b.json"
     (.transport "network down") (.httpStatus 404) (by decide)).1,
   (preload_never_throws "data/a.json" "data/b.json"
     (.transport "network down") (.httpStatus 404) (by decide)).2⟩

/-- C10: a `load(k)` whose fetch settles with the transport's outcome
resolves or rejects exactly as `fetchData` does; `fetchData` succeeds
exactly when the transport delivered an ok response with a decodable body
(so it fails exactly on a non-success status or a transport-level failure),
and the error distinguishes the two cases: it is `httpStatus s` precisely
for a non-ok response of status `s`, and `transport m` precisely for a
rejected fetch or a body decode failure. -/
theorem fetchData_error_taxonomy (tr : TransportResult) (k : Key) :
    (taskOf (run World.init [.loadData 0 k true, .settle 0 (fetchData tr)]) 0 =
      some (.doneOne (fetchData tr))) ∧
    ((∃ v, fetchData tr = .ok v) ↔
      ∃ r, tr = .response r ∧ r.ok = true ∧ ∃ v, r.body = .ok v) ∧
    (∀ s, fetchData tr = .error (.httpStatus s) ↔
      ∃ r, tr = .response r ∧ r.ok = false ∧ r.status = s) ∧
    (∀ m, fetchData tr = .error (.transport m) ↔
      (tr = .networkError m ∨
       ∃ r, tr = .response r ∧ r.ok = true ∧ r.body = .error m)) := by
  refine ⟨?_, ?_, ?_, ?_⟩
  · cases hft : fetchData tr with
    | ok v =>
      simp [run, step, loadDataSync, startTask, mapGet, mapSet, mapDelete, settleLoader,
        settleTask, taskOf, LoaderState.init, World.init]
    | error e =>
      simp [run, step, loadDataSync, startTask, mapGet, mapSet, mapDelete, settleLoader,
        settleTask, taskOf, LoaderState.init, World.init]
  · cases tr with
    | networkError msg => simp [fetchData]
    | response r =>
      obtain ⟨ok, status, body⟩ := r
      cases ok <;> cases body <;> simp [fetchData]
  · intro s
    cases tr with
    | networkError msg => simp [fetchData]
    | response r =>
      obtain ⟨ok, status, body⟩ := r
      cases ok <;> cases body <;> simp [fetchData]
  · intro m
    cases tr with
    | networkError msg => simp [fetchData]
    | response r =>
      obtain ⟨ok, status, body⟩ := r
      cases ok <;> cases body <;> simp [fetchData]

end DataLoader
